import Mathlib

/-!
Shallow embedding of the query-resolver layer of the federation statistics
site: `thefederation/schema.py` (GraphQL resolvers over the ORM models
Node / Platform / Protocol / Stat) and `config/local.py` (test-mode flag).

Relational rows become Lean structures; a database is explicit lists of
rows.  Querysets become lists; `filter` chains become `List.filter`;
`values(date).annotate(...)/order_by(date)` becomes group-by-date
aggregation over the sorted distinct dates; `order_by` becomes a stable
sort (`List.insertionSort`) by the ordering the resolver requests.
Python `ValueError` becomes `Except.error`.  GraphQL string arguments that
may be absent become `Option String`, with Python truthiness (`None` and
`""` are falsy) made explicit.
-/

namespace TheFederation

/-- A federated server instance (`Node` model): host, active flag, the
name of its platform (FK, nullable) and the names of its protocols (m2m). -/
structure Node where
  id : Nat
  host : String
  active : Bool
  platform : Option String
  protocols : List String
deriving DecidableEq, Repr

/-- A software platform row (`Platform` model); only `name` is used by the
resolvers. -/
structure Platform where
  name : String
deriving DecidableEq, Repr

/-- A federation protocol row (`Protocol` model); only `name` is used by
the resolvers. -/
structure Protocol where
  name : String
deriving DecidableEq, Repr

/-- A daily metrics snapshot (`Stat` model): scoped to at most one of a
node (FK by id), a platform (by name) or a protocol (by name), with the
integer metric columns the resolvers aggregate. -/
structure Stat where
  date : Nat
  node : Option Nat
  platform : Option String
  protocol : Option String
  users_total : Int
  users_half_year : Int
  users_monthly : Int
  users_weekly : Int
  local_posts : Int
  local_comments : Int
deriving DecidableEq, Repr

/-- The metric column name passed as the `stat` string argument of
`_get_stat_date_counts`. -/
inductive StatField where
  | users_total
  | users_half_year
  | users_monthly
  | users_weekly
  | local_posts
  | local_comments
deriving DecidableEq, Repr

/-- Reading the named metric column off a stat row. -/
def StatField.get : StatField → Stat → Int
  | .users_total, s => s.users_total
  | .users_half_year, s => s.users_half_year
  | .users_monthly, s => s.users_monthly
  | .users_weekly, s => s.users_weekly
  | .local_posts, s => s.local_posts
  | .local_comments, s => s.local_comments

/-- The database the resolvers query: the row tables plus `now().date()`
(dates are day numbers). -/
structure DB where
  nodes : List Node
  platforms : List Platform
  protocols : List Protocol
  stats : List Stat
  today : Nat

/-- FK dereference: the node row that the stat field `node` references. -/
def DB.findNode (db : DB) (nid : Nat) : Option Node :=
  db.nodes.find? (fun n => n.id == nid)

/-- Python truthiness of an optional string argument (`kwargs.get(...)`):
`None` and the empty string are falsy. -/
def truthy : Option String → Bool
  | none => false
  | some s => !(s == "")

/-- The ORM join `node__platform__name=v` on a stat row: the stat has a
node, and the platform name of that node is `v`. -/
def statNodePlatformIs (db : DB) (s : Stat) (v : String) : Bool :=
  match s.node with
  | none => false
  | some nid =>
    match db.findNode nid with
    | none => false
    | some n => n.platform == some v

/-- The ORM join `node__protocols__name=v` on a stat row: the stat has a
node, and `v` is among the protocol names of that node. -/
def statNodeProtocolHas (db : DB) (s : Stat) (v : String) : Bool :=
  match s.node with
  | none => false
  | some nid =>
    match db.findNode nid with
    | none => false
    | some n => n.protocols.contains v

/-- The ORM join `node__host=v` on a stat row: the stat has a node whose
host is `v`. -/
def statNodeHostIs (db : DB) (s : Stat) (v : String) : Bool :=
  match s.node with
  | none => false
  | some nid =>
    match db.findNode nid with
    | none => false
    | some n => n.host == v

/-- The scoping step shared verbatim by `_get_stat_date_counts`,
`resolve_stats_users_active_ratio` and `resolve_stats_users_per_node`:
`if value and item_type:` dispatch on the item type with a `ValueError`
for an unrecognized one, else the unscoped `filter(node__isnull=False)`. -/
def scopeQS (db : DB) (value item_type : Option String) : Except String (List Stat) :=
  if truthy value && truthy item_type then
    let v := value.getD ""
    let it := item_type.getD ""
    if it = "platform" then
      Except.ok (db.stats.filter (fun s => statNodePlatformIs db s v))
    else if it = "protocol" then
      Except.ok (db.stats.filter (fun s => statNodeProtocolHas db s v))
    else if it = "node" then
      Except.ok (db.stats.filter (fun s => statNodeHostIs db s v))
    else
      Except.error "itemType should be \"platform\", \"node\" or \"protocol"
  else
    Except.ok (db.stats.filter (fun s => s.node.isSome))

/-- The distinct dates among a list of stat rows. -/
def datesOf (l : List Stat) : List Nat :=
  (l.map (fun s => s.date)).dedup

/-- The distinct dates, ascending (`order_by(date)` after grouping). -/
def sortedDatesOf (l : List Stat) : List Nat :=
  List.insertionSort (· ≤ ·) (datesOf l)

/-- Embeds `Sum(stat)` within one date group. -/
def sumField (f : Stat → Int) (l : List Stat) (d : Nat) : Int :=
  ((l.filter (fun s => s.date == d)).map f).sum

/-- Embeds `values(date).annotate(count=Sum(stat)).values(date,count)
.order_by(date)`: one (date, summed count) row per distinct date,
ascending by date. -/
def dateCounts (f : Stat → Int) (l : List Stat) : List (Nat × Int) :=
  (sortedDatesOf l).map (fun d => (d, sumField f l d))

/-- Embeds `count=Cast(Sum(users_monthly), Float) / Cast(Sum(users_total),
Float)` per date group, ascending by date (float division modelled in ℚ). -/
def dateRatios (l : List Stat) : List (Nat × ℚ) :=
  (sortedDatesOf l).map (fun d =>
    (d, (sumField (fun s => s.users_monthly) l d : ℚ) /
        (sumField (fun s => s.users_total) l d : ℚ)))

/-- Embeds `count=Avg(users_total)` per date group, ascending by date. -/
def dateAvgs (l : List Stat) : List (Nat × ℚ) :=
  (sortedDatesOf l).map (fun d =>
    (d, (sumField (fun s => s.users_total) l d : ℚ) /
        ((l.filter (fun s => s.date == d)).length : ℚ)))

/-- Embeds `Query._get_stat_date_counts(stat, value, item_type)`. -/
def _get_stat_date_counts (db : DB) (stat : StatField) (value item_type : Option String) :
    Except String (List (Nat × Int)) :=
  (scopeQS db value item_type).map (fun qs => dateCounts stat.get qs)

/-- Embeds `Query.resolve_stats_users_total`. -/
def resolve_stats_users_total (db : DB) (value itemType : Option String) :
    Except String (List (Nat × Int)) :=
  _get_stat_date_counts db .users_total value itemType

/-- Embeds `Query.resolve_stats_users_half_year`. -/
def resolve_stats_users_half_year (db : DB) (value itemType : Option String) :
    Except String (List (Nat × Int)) :=
  _get_stat_date_counts db .users_half_year value itemType

/-- Embeds `Query.resolve_stats_users_monthly`. -/
def resolve_stats_users_monthly (db : DB) (value itemType : Option String) :
    Except String (List (Nat × Int)) :=
  _get_stat_date_counts db .users_monthly value itemType

/-- Embeds `Query.resolve_stats_users_weekly`. -/
def resolve_stats_users_weekly (db : DB) (value itemType : Option String) :
    Except String (List (Nat × Int)) :=
  _get_stat_date_counts db .users_weekly value itemType

/-- Embeds `Query.resolve_stats_local_posts`. -/
def resolve_stats_local_posts (db : DB) (value itemType : Option String) :
    Except String (List (Nat × Int)) :=
  _get_stat_date_counts db .local_posts value itemType

/-- Embeds `Query.resolve_stats_local_comments`. -/
def resolve_stats_local_comments (db : DB) (value itemType : Option String) :
    Except String (List (Nat × Int)) :=
  _get_stat_date_counts db .local_comments value itemType

/-- Embeds `Query.resolve_stats_users_active_ratio`: the same scoping chain as
`_get_stat_date_counts` (duplicated verbatim in the source), then the
monthly/total ratio per date. -/
def resolve_stats_users_active_ratio (db : DB) (value itemType : Option String) :
    Except String (List (Nat × ℚ)) :=
  (scopeQS db value itemType).map dateRatios

/-- Embeds `Query.resolve_stats_users_per_node`: the same scoping chain, then
`Avg(users_total)` per date. -/
def resolve_stats_users_per_node (db : DB) (value itemType : Option String) :
    Except String (List (Nat × ℚ)) :=
  (scopeQS db value itemType).map dateAvgs

/-- Embeds Python `str.lower()` (basic latin letters), written over the
character list so that it reduces by kernel computation. -/
def lower (s : String) : String :=
  String.mk (s.data.map Char.toLower)

/-- The correlated subquery of `resolve_nodes`: current-day stat rows for the
node, `Max(users_monthly)`; `None` when the node has no stat today. -/
def nodeUsers (db : DB) (n : Node) : Option Int :=
  ((db.stats.filter (fun s => s.node == some n.id && s.date == db.today)).map
    (fun s => s.users_monthly)).max?

/-- Embeds `F(users).desc(nulls_last=True)`: `a` may come before `b`. -/
def usersLE : Option Int → Option Int → Bool
  | none, none => true
  | none, some _ => false
  | some _, none => true
  | some a, some b => b ≤ a

/-- The ordering relation `resolve_nodes` sorts by, on annotated rows. -/
def usersRel (a b : Node × Option Int) : Prop :=
  usersLE a.2 b.2 = true

instance : DecidableRel usersRel :=
  fun a b => inferInstanceAs (Decidable (usersLE a.2 b.2 = true))

/-- Descending order by the annotated count (`order_by(-active_nodes)`). -/
def descRel {α : Type} (a b : α × Nat) : Prop :=
  b.2 ≤ a.2

instance {α : Type} : DecidableRel (descRel (α := α)) :=
  fun a b => Nat.decLe b.2 a.2

/-- Embeds `Query.resolve_nodes`: active nodes, optionally filtered by platform
name / protocol name / host, annotated with the current-day max monthly-user
count, ordered descending by it with nulls last.  (`Node.objects.active()`
lives in the models module, not in this repository slice; modelled from
the spec: it filters to nodes whose active flag is set.) -/
def resolve_nodes (db : DB) (host platform protocol : Option String) :
    List (Node × Option Int) :=
  let qs :=
    if truthy platform then
      (db.nodes.filter (fun n => n.active)).filter
        (fun n => n.platform == some (platform.getD ""))
    else if truthy protocol then
      (db.nodes.filter (fun n => n.active)).filter
        (fun n => n.protocols.contains (protocol.getD ""))
    else
      db.nodes.filter (fun n => n.active)
  let qs := if truthy host then qs.filter (fun n => n.host == host.getD "") else qs
  let qs := qs.filter (fun n => n.active)
  List.insertionSort usersRel (qs.map (fun n => (n, nodeUsers db n)))

/-- The correlated subquery of `resolve_platforms`: count of active nodes
on the platform (modelled from the spec: `Node.objects.active()` filters
to nodes whose active flag is set). -/
def platformActiveNodes (db : DB) (pname : String) : Nat :=
  (db.nodes.filter (fun n => n.active && n.platform == some pname)).length

/-- The correlated subquery of `resolve_protocols`: count of active nodes
speaking the protocol (modelled from the spec: `Node.objects.active()`
filters to nodes whose active flag is set). -/
def protocolActiveNodes (db : DB) (pname : String) : Nat :=
  (db.nodes.filter (fun n => n.active && n.protocols.contains pname)).length

/-- Embeds `Query.resolve_platforms`: optional filter by lower-cased name,
annotate active-node count, keep counts > 0, order descending by count. -/
def resolve_platforms (db : DB) (name : Option String) : List (Platform × Nat) :=
  let qs :=
    if truthy name then
      db.platforms.filter (fun p => p.name == lower (name.getD ""))
    else
      db.platforms
  List.insertionSort descRel
    ((qs.map (fun p => (p, platformActiveNodes db p.name))).filter
      (fun pc => 0 < pc.2))

/-- Embeds `Query.resolve_protocols`: optional filter by lower-cased name (the
source lower-cases here too), annotate active-node count, keep counts > 0,
order descending by count. -/
def resolve_protocols (db : DB) (name : Option String) : List (Protocol × Nat) :=
  let qs :=
    if truthy name then
      db.protocols.filter (fun p => p.name == lower (name.getD ""))
    else
      db.protocols
  List.insertionSort descRel
    ((qs.map (fun p => (p, protocolActiveNodes db p.name))).filter
      (fun pc => 0 < pc.2))

/-- Embeds `Query.resolve_stats_platform_today`: empty result when `name` is
falsy; else `first()` of current-day rows with node and protocol null and the
named platform. -/
def resolve_stats_platform_today (db : DB) (name : Option String) : Option Stat :=
  if !(truthy name) then
    none
  else
    (db.stats.filter (fun s =>
      s.node == none && s.protocol == none &&
      s.platform == some (name.getD "") && s.date == db.today)).head?

/-- Embeds `Query.resolve_stats_protocol_today`: empty result when `name` is
falsy; else `first()` of current-day rows with node and platform null and the
named protocol. -/
def resolve_stats_protocol_today (db : DB) (name : Option String) : Option Stat :=
  if !(truthy name) then
    none
  else
    (db.stats.filter (fun s =>
      s.node == none && s.platform == none &&
      s.protocol == some (name.getD "") && s.date == db.today)).head?

/-- Embeds `config/local.py` line 9: the test-mode flag.  `ci` and `tst` are the
parsed boolean values of the `CI` and `TEST` environment variables
(`env.bool(..., default=False)`), `argv` is `sys.argv`. -/
def testing (ci tst : Bool) (argv : List String) : Bool :=
  ci || tst || argv.contains "test"

/-- Embeds `config/local.py` lines 82-84: `REDIS_DB` is reassigned to 15 exactly
when the test-mode flag is set; otherwise it keeps its inherited value. -/
def redisDB (base : Nat) (ci tst : Bool) (argv : List String) : Nat :=
  if testing ci tst argv then 15 else base

/-! ### Concrete example data (for counterexamples and witnesses) -/

/-- Stat-row builder: scope fields and the two metrics the examples vary;
remaining metrics zero. -/
def mkStat (d : Nat) (nd : Option Nat) (pf pr : Option String) (ut um : Int) : Stat :=
  { date := d, node := nd, platform := pf, protocol := pr,
    users_total := ut, users_half_year := 0, users_monthly := um,
    users_weekly := 0, local_posts := 0, local_comments := 0 }

def n1ex : Node := { id := 1, host := "a.example", active := true,
                     platform := some "diaspora", protocols := ["foo"] }

def n2ex : Node := { id := 2, host := "b.example", active := true,
                     platform := some "diaspora", protocols := ["activitypub"] }

def n3ex : Node := { id := 3, host := "c.example", active := false,
                     platform := some "diaspora", protocols := ["foo"] }

/-- A small database: two active nodes (current-day monthly counts 50 and 5),
one inactive node, a platform with no active nodes, per-node stat rows on
two dates, and one platform-scoped and one protocol-scoped row for today. -/
def exDB : DB :=
  { nodes := [n2ex, n1ex, n3ex],
    platforms := [⟨"diaspora"⟩, ⟨"empty"⟩],
    protocols := [⟨"foo"⟩, ⟨"activitypub"⟩],
    stats := [mkStat 100 (some 1) none none 100 50,
              mkStat 100 (some 2) none none 10 5,
              mkStat 99 (some 1) none none 10 20,
              mkStat 100 none (some "diaspora") none 500 0,
              mkStat 100 none none (some "foo") 600 0],
    today := 100 }

/-- Three per-node stat rows on consecutive dates, each with
`users_total = 10`, listed out of date order. -/
def exDB7 : DB :=
  { nodes := [],
    platforms := [],
    protocols := [],
    stats := [mkStat 20240102 (some 1) none none 10 0,
              mkStat 20240101 (some 1) none none 10 0,
              mkStat 20240103 (some 1) none none 10 0],
    today := 0 }

/-- The scope condition of the spec, per item type: the stat row joins to
a node whose platform name / protocol set / host matches the value. -/
def matchesScope (db : DB) (it v : String) (s : Stat) : Bool :=
  if it = "platform" then statNodePlatformIs db s v
  else if it = "protocol" then statNodeProtocolHas db s v
  else if it = "node" then statNodeHostIs db s v
  else false

/-- The stat rows whose join matches the requested scope. -/
def matchingStats (db : DB) (it v : String) : List Stat :=
  db.stats.filter (fun s => matchesScope db it v s)

/-- The unscoped queryset: stat rows with a non-null node reference. -/
def unscopedStats (db : DB) : List Stat :=
  db.stats.filter (fun s => s.node.isSome)

instance : IsTotal (Node × Option Int) usersRel := by
  constructor
  intro a b
  rcases a with ⟨n, _ | x⟩ <;> rcases b with ⟨m, _ | y⟩ <;>
    simp [usersRel, usersLE] <;> omega

instance : IsTrans (Node × Option Int) usersRel := by
  constructor
  intro a b c hab hbc
  rcases a with ⟨n, _ | x⟩ <;> rcases b with ⟨m, _ | y⟩ <;> rcases c with ⟨k, _ | z⟩ <;>
    simp_all [usersRel, usersLE] <;> omega

instance {α : Type} : IsTotal (α × Nat) (descRel (α := α)) :=
  ⟨fun a b => Nat.le_total b.2 a.2⟩

instance {α : Type} : IsTrans (α × Nat) (descRel (α := α)) :=
  ⟨fun _ _ _ hab hbc => Nat.le_trans hbc hab⟩

theorem sortedDatesOf_sorted (l : List Stat) :
    List.Sorted (· ≤ ·) (sortedDatesOf l) :=
  List.sorted_insertionSort _ _

theorem sortedDatesOf_nodup (l : List Stat) : (sortedDatesOf l).Nodup :=
  (List.perm_insertionSort (· ≤ ·) (datesOf l)).nodup_iff.mpr (List.nodup_dedup _)

theorem sortedDatesOf_mem (l : List Stat) (d : Nat) :
    d ∈ sortedDatesOf l ↔ ∃ s ∈ l, s.date = d := by
  unfold sortedDatesOf datesOf
  rw [List.mem_insertionSort, List.mem_dedup, List.mem_map]

/-- Every row of the date-count aggregation carries the date of some row
of the underlying queryset and the sum of the metric over that date. -/
theorem dateCounts_mem (f : Stat → Int) (l : List Stat) (p : Nat × Int)
    (hp : p ∈ dateCounts f l) :
    (∃ s ∈ l, s.date = p.1) ∧ p.2 = sumField f l p.1 := by
  unfold dateCounts at hp
  rcases List.mem_map.mp hp with ⟨d, hd, rfl⟩
  exact ⟨(sortedDatesOf_mem l d).mp hd, rfl⟩

/-- Every date of the underlying queryset has a row in the aggregation. -/
theorem dateCounts_complete (f : Stat → Int) (l : List Stat) (s : Stat) (hs : s ∈ l) :
    ∃ p ∈ dateCounts f l, p.1 = s.date := by
  refine ⟨(s.date, sumField f l s.date), ?_, rfl⟩
  unfold dateCounts
  exact List.mem_map.mpr ⟨s.date, (sortedDatesOf_mem l s.date).mpr ⟨s, hs, rfl⟩, rfl⟩

/-- The aggregation rows are strictly ascending by date: ordered, and one
row per distinct date. -/
theorem dateCounts_strictSorted (f : Stat → Int) (l : List Stat) :
    List.Pairwise (fun p q : Nat × Int => p.1 < q.1) (dateCounts f l) := by
  have h := (sortedDatesOf_sorted l).lt_of_le (sortedDatesOf_nodup l)
  unfold dateCounts
  exact List.pairwise_map.mpr h

/-- Valid scope: the shared scoping step returns exactly the stat rows
whose join matches the value. -/
theorem scopeQS_valid (db : DB) (it v : String)
    (hit : it = "platform" ∨ it = "protocol" ∨ it = "node") (hv : v ≠ "") :
    scopeQS db (some v) (some it) = Except.ok (matchingStats db it v) := by
  rcases hit with h | h | h <;> subst h <;>
    simp [scopeQS, truthy, matchingStats, matchesScope, hv]

/-- Fallback: unless both value and item type are truthy, the shared
scoping step returns the unscoped queryset and no error. -/
theorem scopeQS_fallback (db : DB) (value item_type : Option String)
    (h : ¬(truthy value = true ∧ truthy item_type = true)) :
    scopeQS db value item_type = Except.ok (unscopedStats db) := by
  have hb : (truthy value && truthy item_type) = false := by
    rcases hv : truthy value <;> rcases hi : truthy item_type <;> simp_all
  simp [scopeQS, hb, unscopedStats]

/-- Unrecognized item type together with a truthy value: ValueError. -/
theorem scopeQS_badItem (db : DB) (it v : String) (hv : v ≠ "") (hit : it ≠ "")
    (h1 : it ≠ "platform") (h2 : it ≠ "protocol") (h3 : it ≠ "node") :
    scopeQS db (some v) (some it) =
      Except.error "itemType should be \"platform\", \"node\" or \"protocol" := by
  simp [scopeQS, truthy, hv, hit, h1, h2, h3]

/-- C1, counterexample: with the itemType argument "bogus" (outside the
recognized set) and no value argument, the shared date-count helper does
not raise; it silently returns the same unscoped result as with no
arguments, contradicting the claim as stated. -/
theorem claim1_counterexample :
    (_get_stat_date_counts exDB .users_total none (some "bogus")).isOk = true ∧
    _get_stat_date_counts exDB .users_total none (some "bogus") =
      _get_stat_date_counts exDB .users_total none none :=
  ⟨rfl, rfl⟩

/-- C1 (amended): when a non-empty value is supplied together with a
non-empty itemType outside {platform, protocol, node}, the shared
date-count helper, stats_users_active_ratio and stats_users_per_node all
raise the ValueError rather than returning a result. -/
theorem claim1_bad_itemType_errors (db : DB) (f : StatField) (it v : String)
    (hv : v ≠ "") (hit : it ≠ "")
    (h1 : it ≠ "platform") (h2 : it ≠ "protocol") (h3 : it ≠ "node") :
    _get_stat_date_counts db f (some v) (some it) =
      Except.error "itemType should be \"platform\", \"node\" or \"protocol" ∧
    resolve_stats_users_active_ratio db (some v) (some it) =
      Except.error "itemType should be \"platform\", \"node\" or \"protocol" ∧
    resolve_stats_users_per_node db (some v) (some it) =
      Except.error "itemType should be \"platform\", \"node\" or \"protocol" := by
  have h := scopeQS_badItem db it v hv hit h1 h2 h3
  exact ⟨by simp [_get_stat_date_counts, h, Except.map],
         by simp [resolve_stats_users_active_ratio, h, Except.map],
         by simp [resolve_stats_users_per_node, h, Except.map]⟩

/-- C1, witness at itemType "bogus" with value "x". -/
theorem claim1_witness :
    _get_stat_date_counts exDB .users_total (some "x") (some "bogus") =
      Except.error "itemType should be \"platform\", \"node\" or \"protocol" :=
  (claim1_bad_itemType_errors exDB .users_total "bogus" "x"
    (by decide) (by decide) (by decide) (by decide) (by decide)).1

/-- C2: for a valid itemType paired with a non-empty value, every scoped
aggregate resolver returns exactly the per-date aggregation of the stat
rows whose corresponding join (platform name, protocol name, or host of
the stat row node) equals that value; each returned row carries the date
of a matching stat row and the sum of the metric over the matching rows
of that date. -/
theorem claim2_scoped_resolvers (db : DB) (it v : String)
    (hit : it = "platform" ∨ it = "protocol" ∨ it = "node") (hv : v ≠ "") :
    resolve_stats_users_total db (some v) (some it) =
      Except.ok (dateCounts StatField.users_total.get (matchingStats db it v)) ∧
    resolve_stats_users_half_year db (some v) (some it) =
      Except.ok (dateCounts StatField.users_half_year.get (matchingStats db it v)) ∧
    resolve_stats_users_monthly db (some v) (some it) =
      Except.ok (dateCounts StatField.users_monthly.get (matchingStats db it v)) ∧
    resolve_stats_users_weekly db (some v) (some it) =
      Except.ok (dateCounts StatField.users_weekly.get (matchingStats db it v)) ∧
    resolve_stats_local_posts db (some v) (some it) =
      Except.ok (dateCounts StatField.local_posts.get (matchingStats db it v)) ∧
    resolve_stats_local_comments db (some v) (some it) =
      Except.ok (dateCounts StatField.local_comments.get (matchingStats db it v)) ∧
    resolve_stats_users_active_ratio db (some v) (some it) =
      Except.ok (dateRatios (matchingStats db it v)) ∧
    resolve_stats_users_per_node db (some v) (some it) =
      Except.ok (dateAvgs (matchingStats db it v)) ∧
    (∀ (f : Stat → Int) (p : Nat × Int), p ∈ dateCounts f (matchingStats db it v) →
      (∃ s ∈ db.stats, matchesScope db it v s = true ∧ s.date = p.1) ∧
      p.2 = sumField f (matchingStats db it v) p.1) := by
  have h := scopeQS_valid db it v hit hv
  refine ⟨?_, ?_, ?_, ?_, ?_, ?_, ?_, ?_, ?_⟩
  · simp [resolve_stats_users_total, _get_stat_date_counts, h, Except.map]
  · simp [resolve_stats_users_half_year, _get_stat_date_counts, h, Except.map]
  · simp [resolve_stats_users_monthly, _get_stat_date_counts, h, Except.map]
  · simp [resolve_stats_users_weekly, _get_stat_date_counts, h, Except.map]
  · simp [resolve_stats_local_posts, _get_stat_date_counts, h, Except.map]
  · simp [resolve_stats_local_comments, _get_stat_date_counts, h, Except.map]
  · simp [resolve_stats_users_active_ratio, h, Except.map]
  · simp [resolve_stats_users_per_node, h, Except.map]
  · intro f p hp
    obtain ⟨⟨s, hs, hdate⟩, hsum⟩ := dateCounts_mem f (matchingStats db it v) p hp
    rw [matchingStats] at hs
    obtain ⟨hmem, hmatch⟩ := List.mem_filter.mp hs
    exact ⟨⟨s, hmem, hmatch, hdate⟩, hsum⟩

/-- C2, witness at itemType "platform", value "diaspora". -/
theorem claim2_witness :
    resolve_stats_users_total exDB (some "diaspora") (some "platform") =
      Except.ok (dateCounts StatField.users_total.get (matchingStats exDB "platform" "diaspora")) :=
  (claim2_scoped_resolvers exDB "platform" "diaspora" (Or.inl rfl) (by decide)).1

/-- C3: with an absent or empty name both today-resolvers return the
empty result (and, being total functions, raise nothing); with a name
supplied, any returned row is dated today, scoped exactly to the named
platform (resp. protocol) with the other scope fields null. -/
theorem claim3_today_resolvers (db : DB) (name : Option String) :
    (truthy name = false →
      resolve_stats_platform_today db name = none ∧
      resolve_stats_protocol_today db name = none) ∧
    (∀ v s, name = some v → resolve_stats_platform_today db name = some s →
      s.date = db.today ∧ s.node = none ∧ s.protocol = none ∧ s.platform = some v) ∧
    (∀ v s, name = some v → resolve_stats_protocol_today db name = some s →
      s.date = db.today ∧ s.node = none ∧ s.platform = none ∧ s.protocol = some v) := by
  refine ⟨fun h => ?_, fun v s hv h => ?_, fun v s hv h => ?_⟩
  · exact ⟨by simp [resolve_stats_platform_today, h],
           by simp [resolve_stats_protocol_today, h]⟩
  · subst hv
    by_cases ht : truthy (some v) = true
    · rw [resolve_stats_platform_today, if_neg (by simp [ht])] at h
      have hs := List.mem_of_mem_head? (Option.mem_def.mpr h)
      have hpred := (List.mem_filter.mp hs).2
      simp only [Bool.and_eq_true, beq_iff_eq, Option.getD_some] at hpred
      exact ⟨hpred.2, hpred.1.1.1, hpred.1.1.2, hpred.1.2⟩
    · rw [resolve_stats_platform_today, if_pos (by simp_all)] at h
      cases h
  · subst hv
    by_cases ht : truthy (some v) = true
    · rw [resolve_stats_protocol_today, if_neg (by simp [ht])] at h
      have hs := List.mem_of_mem_head? (Option.mem_def.mpr h)
      have hpred := (List.mem_filter.mp hs).2
      simp only [Bool.and_eq_true, beq_iff_eq, Option.getD_some] at hpred
      exact ⟨hpred.2, hpred.1.1.1, hpred.1.1.2, hpred.1.2⟩
    · rw [resolve_stats_protocol_today, if_pos (by simp_all)] at h
      cases h

/-- C3, witness: the row returned for platform "diaspora" on the example
database is dated today and scoped exactly to that platform. -/
theorem claim3_witness :
    (mkStat 100 none (some "diaspora") none 500 0).date = exDB.today ∧
    (mkStat 100 none (some "diaspora") none 500 0).node = none ∧
    (mkStat 100 none (some "diaspora") none 500 0).protocol = none ∧
    (mkStat 100 none (some "diaspora") none 500 0).platform = some "diaspora" :=
  (claim3_today_resolvers exDB (some "diaspora")).2.1 "diaspora"
    (mkStat 100 none (some "diaspora") none 500 0) rfl (by decide)

/-- C4: whatever combination of host, platform and protocol filters is
supplied, every row returned by resolve_nodes is an active node. -/
theorem claim4_nodes_active (db : DB) (host platform protocol : Option String)
    (x : Node × Option Int) (hx : x ∈ resolve_nodes db host platform protocol) :
    x.1.active = true := by
  simp only [resolve_nodes, List.mem_insertionSort] at hx
  obtain ⟨n, hn, rfl⟩ := List.mem_map.mp hx
  exact (List.mem_filter.mp hn).2

/-- C4, witness: the top row of the unfiltered example query is active. -/
theorem claim4_witness : ((n1ex, some (50 : Int)) : Node × Option Int).1.active = true :=
  claim4_nodes_active exDB none none none (n1ex, some 50) (by decide)

/-- C5: resolve_nodes output is always sorted non-increasingly by the
annotated users value with nulls last; on the example database with two
active nodes whose current-day monthly counts are 50 and 5 (listed in the
opposite order), the result is [50-count node, 5-count node]. -/
theorem claim5_nodes_ordering :
    (∀ (db : DB) (host platform protocol : Option String),
      List.Pairwise usersRel (resolve_nodes db host platform protocol)) ∧
    resolve_nodes exDB none none none = [(n1ex, some 50), (n2ex, some 5)] ∧
    nodeUsers exDB n1ex = some 50 ∧ nodeUsers exDB n2ex = some 5 := by
  refine ⟨fun db host platform protocol => ?_, by decide, by decide, by decide⟩
  exact List.sorted_insertionSort usersRel _

/-- C6: neither resolve_platforms nor resolve_protocols ever returns an
entry whose active-node count is zero, and both outputs are ordered
descending by that count. -/
theorem claim6_platforms_protocols (db : DB) (name : Option String) :
    (∀ x ∈ resolve_platforms db name, 0 < x.2) ∧
    (∀ x ∈ resolve_protocols db name, 0 < x.2) ∧
    List.Pairwise descRel (resolve_platforms db name) ∧
    List.Pairwise descRel (resolve_protocols db name) := by
  refine ⟨fun x hx => ?_, fun x hx => ?_, ?_, ?_⟩
  · simp only [resolve_platforms, List.mem_insertionSort] at hx
    exact of_decide_eq_true (List.mem_filter.mp hx).2
  · simp only [resolve_protocols, List.mem_insertionSort] at hx
    exact of_decide_eq_true (List.mem_filter.mp hx).2
  · exact List.sorted_insertionSort descRel _
  · exact List.sorted_insertionSort descRel _

/-- C6, witness: the diaspora entry of the example output has a positive
active-node count. -/
theorem claim6_witness : (0 : Nat) < ((⟨"diaspora"⟩, 2) : Platform × Nat).2 :=
  (claim6_platforms_protocols exDB none).1 (⟨"diaspora"⟩, 2) (by decide)

/-- C7: each of the six date-count resolvers, called unscoped, returns the
per-date aggregation of the node-scoped stat rows; any such aggregation
has one row per distinct date (strictly ascending by date), each count is
the sum of the metric over the rows of that date, and every date of the
underlying rows appears; on the example database with rows on three dates
each carrying users_total 10, the result is the three pairs with count 10,
ascending by date. -/
theorem claim7_date_counts_shape (db : DB) :
    resolve_stats_users_total db none none =
      Except.ok (dateCounts StatField.users_total.get (unscopedStats db)) ∧
    resolve_stats_users_half_year db none none =
      Except.ok (dateCounts StatField.users_half_year.get (unscopedStats db)) ∧
    resolve_stats_users_monthly db none none =
      Except.ok (dateCounts StatField.users_monthly.get (unscopedStats db)) ∧
    resolve_stats_users_weekly db none none =
      Except.ok (dateCounts StatField.users_weekly.get (unscopedStats db)) ∧
    resolve_stats_local_posts db none none =
      Except.ok (dateCounts StatField.local_posts.get (unscopedStats db)) ∧
    resolve_stats_local_comments db none none =
      Except.ok (dateCounts StatField.local_comments.get (unscopedStats db)) ∧
    (∀ (f : Stat → Int) (l : List Stat),
      List.Pairwise (fun p q : Nat × Int => p.1 < q.1) (dateCounts f l)) ∧
    (∀ (f : Stat → Int) (l : List Stat) (p : Nat × Int), p ∈ dateCounts f l →
      p.2 = sumField f l p.1 ∧ ∃ s ∈ l, s.date = p.1) ∧
    (∀ (f : Stat → Int) (l : List Stat) (s : Stat), s ∈ l →
      ∃ p ∈ dateCounts f l, p.1 = s.date) ∧
    resolve_stats_users_total exDB7 none none =
      Except.ok [(20240101, 10), (20240102, 10), (20240103, 10)] := by
  refine ⟨rfl, rfl, rfl, rfl, rfl, rfl, ?_, ?_, ?_, rfl⟩
  · exact fun f l => dateCounts_strictSorted f l
  · intro f l p hp
    obtain ⟨hex, hsum⟩ := dateCounts_mem f l p hp
    exact ⟨hsum, hex⟩
  · exact fun f l s hs => dateCounts_complete f l s hs

/-- C7, witness: the example aggregation, evaluated. -/
theorem claim7_witness :
    resolve_stats_users_total exDB7 none none =
      Except.ok [(20240101, 10), (20240102, 10), (20240103, 10)] :=
  (claim7_date_counts_shape exDB7).2.2.2.2.2.2.2.2.2

/-- C8, counterexample: on the example database, whose protocol table
holds no protocol named "Foo", resolve_protocols called with name "Foo"
still returns the protocol named "foo" — the source lower-cases the name
for protocols exactly as it does for platforms, so the filter is not by
the exact name as given. -/
theorem claim8_counterexample :
    resolve_protocols exDB (some "Foo") = [(⟨"foo"⟩, 1)] ∧
    exDB.protocols.all (fun p => !(p.name == "Foo")) = true :=
  ⟨by decide, by decide⟩

/-- C8 (amended): when a name argument is supplied, resolve_platforms and
resolve_protocols both filter by the lower-cased name: every returned
entry bears the lower-cased name. -/
theorem claim8_lowercased_name (db : DB) (v : String) (hv : v ≠ "") :
    (∀ x ∈ resolve_platforms db (some v), x.1.name = lower v) ∧
    (∀ x ∈ resolve_protocols db (some v), x.1.name = lower v) := by
  constructor
  · intro x hx
    simp only [resolve_platforms, List.mem_insertionSort] at hx
    rw [if_pos (show truthy (some v) = true by simp [truthy, hv])] at hx
    obtain ⟨hmem, _⟩ := List.mem_filter.mp hx
    obtain ⟨p, hp, rfl⟩ := List.mem_map.mp hmem
    simpa using (List.mem_filter.mp hp).2
  · intro x hx
    simp only [resolve_protocols, List.mem_insertionSort] at hx
    rw [if_pos (show truthy (some v) = true by simp [truthy, hv])] at hx
    obtain ⟨hmem, _⟩ := List.mem_filter.mp hx
    obtain ⟨p, hp, rfl⟩ := List.mem_map.mp hmem
    simpa using (List.mem_filter.mp hp).2

/-- C8, witness: querying platforms with the mixed-case name "DiAspora"
returns the platform stored under the lower-cased name. -/
theorem claim8_witness :
    (((⟨"diaspora"⟩, 2) : Platform × Nat)).1.name = lower "DiAspora" :=
  (claim8_lowercased_name exDB "DiAspora" (by decide)).1 (⟨"diaspora"⟩, 2) (by decide)

/-- C9: the test-mode flag is true exactly when the CI variable parses
true, or the TEST variable parses true, or "test" is among the process
arguments; REDIS_DB is 15 exactly when the flag is true and keeps its
inherited value otherwise. -/
theorem claim9_test_mode (ci tst : Bool) (argv : List String) (base : Nat) :
    (testing ci tst argv = true ↔ (ci = true ∨ tst = true ∨ "test" ∈ argv)) ∧
    redisDB base ci tst argv = (if testing ci tst argv then 15 else base) ∧
    (testing ci tst argv = false → redisDB base ci tst argv = base) := by
  refine ⟨?_, rfl, fun h => by simp [redisDB, h]⟩
  simp [testing, or_assoc]

/-- C9, witness: with both variables unset and "test" among the process
arguments, the flag is on. -/
theorem claim9_witness : testing false false ["manage.py", "test"] = true :=
  (claim9_test_mode false false ["manage.py", "test"] 0).1.mpr
    (Or.inr (Or.inr (by decide)))

/-- C10: whenever value and itemType are not both supplied non-empty —
including an unrecognized itemType with no value — the shared date-count
helper, stats_users_active_ratio and stats_users_per_node all silently
return the unscoped aggregation over the stat rows with a non-null node
reference, and no error is raised. -/
theorem claim10_unscoped_fallback (db : DB) (value itemType : Option String)
    (h : ¬(truthy value = true ∧ truthy itemType = true)) :
    (∀ f : StatField, _get_stat_date_counts db f value itemType =
      Except.ok (dateCounts f.get (unscopedStats db))) ∧
    resolve_stats_users_active_ratio db value itemType =
      Except.ok (dateRatios (unscopedStats db)) ∧
    resolve_stats_users_per_node db value itemType =
      Except.ok (dateAvgs (unscopedStats db)) := by
  have hs := scopeQS_fallback db value itemType h
  exact ⟨fun f => by simp [_get_stat_date_counts, hs, Except.map],
         by simp [resolve_stats_users_active_ratio, hs, Except.map],
         by simp [resolve_stats_users_per_node, hs, Except.map]⟩

/-- C10, witness: an unrecognized itemType with no value falls back to
the unscoped ratio aggregation. -/
theorem claim10_witness :
    resolve_stats_users_active_ratio exDB none (some "bogus") =
      Except.ok (dateRatios (unscopedStats exDB)) :=
  (claim10_unscoped_fallback exDB none (some "bogus") (by decide)).2.1

end TheFederation
